import Mathlib

/-!
Verification of the flocker certificate-authority CLI layer
(`flocker/ca/_script.py`) and the control-plane HTTP resource layer
(`flocker/control/httpapi.py`) against their natural-language
specification.

The core CA module (`flocker/ca/_ca.py`) is not among the embedded
sources; the CLI layer only imports its operations
(`RootCredential.from_path`, `RootCredential.initialize`,
`ControlCredential.initialize`, `NodeCredential.initialize`,
`UserCredential.initialize`) and its typed error classes
(`PathError`, `KeyAlreadyExistsError`, `CertificateAlreadyExistsError`).
We therefore abstract the core operations as an environment of oracles
returning either a credential or one of the typed errors, and embed the
CLI run methods faithfully over that environment.  Where a claim is
about the missing core itself, a definition marked
`Modelled from the spec:` follows the specification text.
-/

/-- The typed errors raised by the core CA module
(`flocker/ca/_ca.py`, imported at the top of `_script.py`):
`PathError`, `KeyAlreadyExistsError`, `CertificateAlreadyExistsError`.
Each Python exception carries a message; `str(e)` returns it. -/
inductive CoreError where
  | pathError (msg : String)
  | keyAlreadyExistsError (msg : String)
  | certificateAlreadyExistsError (msg : String)
  deriving DecidableEq, Repr

/-- The text of a core error, the embedding of Python `str(e)`. -/
def CoreError.text : CoreError → String
  | .pathError m => m
  | .keyAlreadyExistsError m => m
  | .certificateAlreadyExistsError m => m

/-- Whether a core error is a `PathError`. -/
def CoreError.isPathError : CoreError → Bool
  | .pathError _ => true
  | _ => false

/-- Every exception kind that can travel through the `try` blocks of the
run methods in `_script.py`: the three typed core errors, the Python
unicode conversion errors raised by `str.decode`, Twisted `UsageError`,
and the `InvalidIdentityError` named by the specification (never raised
anywhere in `_script.py`, present here so that claims about it can be
stated). -/
inductive RunError where
  | pathError (msg : String)
  | keyAlreadyExistsError (msg : String)
  | certificateAlreadyExistsError (msg : String)
  | unicodeDecodeError
  | unicodeEncodeError
  | invalidIdentityError (msg : String)
  | usageError (msg : String)
  deriving DecidableEq, Repr

/-- Inject a typed core error into the run-level exception kinds. -/
def CoreError.toRunError : CoreError → RunError
  | .pathError m => .pathError m
  | .keyAlreadyExistsError m => .keyAlreadyExistsError m
  | .certificateAlreadyExistsError m => .certificateAlreadyExistsError m

/-- Whether a run-level error is the dedicated invalid-name error
`InvalidIdentityError` named by the specification. -/
def RunError.isInvalidIdentityError : RunError → Bool
  | .invalidIdentityError _ => true
  | _ => false

/-- The observable result of a `run` method: normal return, a
`SystemExit` raised with a message, or an exception escaping `run`
unconverted. -/
inductive Outcome where
  | success (stdout : String)
  | systemExit (msg : String)
  | uncaught (e : RunError)
  deriving DecidableEq, Repr

/-- The side effects a run method performs, in order: loading the root
credential from a directory, asking the core to initialize a leaf or
root credential in a directory, and writing to stdout.  Key generation
and all file writes happen inside the core initialize operations, so an
empty trace means no key generation and no file I/O took place. -/
inductive Effect where
  | loadRoot (dir : String)
  | initUser (dir : String) (name : String)
  | initNode (dir : String)
  | initControl (dir : String)
  | initRoot (dir : String) (name : String)
  | writeStdout (msg : String)
  deriving DecidableEq, Repr

/-- The root credential object returned by `RootCredential.from_path`;
the CLI layer only threads it through to the leaf initializers. -/
structure Root where
  subject : String
  deriving DecidableEq, Repr

/-- The user credential object returned by `UserCredential.initialize`;
the CLI reads its `username` attribute for the confirmation message. -/
structure UserCred where
  username : String
  deriving DecidableEq, Repr

/-- The node credential object returned by `NodeCredential.initialize`;
the CLI reads its `uuid` attribute for the confirmation message. -/
structure NodeCred where
  uuid : String
  deriving DecidableEq, Repr

/-- The environment a run method executes in: the process current
working directory (`os.getcwd()`) and the behaviour of the core CA
operations, abstracted as functions that either return a credential or
raise one of the typed core errors (`flocker/ca/_ca.py` is not among
the embedded sources). -/
structure CAEnv where
  cwd : String
  fromPath : String → Except CoreError Root
  userInitialize : String → Root → String → Except CoreError UserCred
  nodeInitialize : String → Root → Except CoreError NodeCred
  controlInitialize : String → Root → Except CoreError Unit
  rootInitialize : String → String → Except CoreError Unit

/-- A continuation byte of a multi-byte UTF-8 sequence: `0x80..0xBF`. -/
def contByte (b : Nat) : Bool := 128 ≤ b && b < 192

/-- Strict UTF-8 decoding of a byte sequence into code points,
the embedding of Python `bytes.decode("utf-8")`: rejects stray
continuation bytes, overlong encodings, surrogates and code points
beyond U+10FFFF; returns `none` where Python raises
`UnicodeDecodeError`. -/
def utf8DecodeAux : List Nat → Option (List Char)
  | [] => some []
  | b :: rest =>
    if b < 128 then
      (utf8DecodeAux rest).map (fun cs => Char.ofNat b :: cs)
    else if b < 194 then none
    else if b < 224 then
      match rest with
      | [] => none
      | c1 :: rest2 =>
        if contByte c1 then
          (utf8DecodeAux rest2).map (fun cs =>
            Char.ofNat ((b - 192) * 64 + (c1 - 128)) :: cs)
        else none
    else if b < 240 then
      match rest with
      | c1 :: c2 :: rest3 =>
        if contByte c1 && contByte c2 then
          let cp := (b - 224) * 4096 + (c1 - 128) * 64 + (c2 - 128)
          if 2048 ≤ cp && (cp < 55296 || 57344 ≤ cp) then
            (utf8DecodeAux rest3).map (fun cs => Char.ofNat cp :: cs)
          else none
        else none
      | _ => none
    else if b < 245 then
      match rest with
      | c1 :: c2 :: c3 :: rest4 =>
        if contByte c1 && contByte c2 && contByte c3 then
          let cp := (b - 240) * 262144 + (c1 - 128) * 4096 +
                    (c2 - 128) * 64 + (c3 - 128)
          if 65536 ≤ cp && cp < 1114112 then
            (utf8DecodeAux rest4).map (fun cs => Char.ofNat cp :: cs)
          else none
        else none
      | _ => none
    else none

/-- Decode argv bytes to a Lean string, the embedding of
`self["name"].decode("utf-8")` at `_script.py:139`. -/
def utf8Decode (bs : List Nat) : Option String :=
  (utf8DecodeAux bs).map (fun cs => String.mk cs)

/-- Resolve an optional path option against the current working
directory: the embedding of the
`if self["inputpath"] is None: self["inputpath"] = os.getcwd()`
pattern at the top of each create-subcommand run method. -/
def resolvePath (p : Option String) (cwd : String) : String := p.getD cwd

/-- The outer `except UsageError` clause shared by all four run
methods: a `UsageError` becomes `SystemExit("Error: " + str(e))`; any
other exception propagates out of `run`. -/
def outerHandler (e : RunError) : Outcome :=
  match e with
  | .usageError m => .systemExit ("Error: " ++ m)
  | e => .uncaught e

/-- The inner except clauses of `InitializeOptions.run`
(`_script.py:315-318`): `KeyAlreadyExistsError`,
`CertificateAlreadyExistsError` and `PathError` are re-raised as
`UsageError(str(e))`; anything else propagates. -/
def initializeInnerHandler : RunError → RunError
  | .keyAlreadyExistsError m => .usageError m
  | .certificateAlreadyExistsError m => .usageError m
  | .pathError m => .usageError m
  | e => e

/-- The inner except clauses of `ControlCertificateOptions.run`
(`_script.py:265-268`): `CertificateAlreadyExistsError`,
`KeyAlreadyExistsError` and `PathError` are re-raised as
`UsageError(str(e))`; anything else propagates. -/
def controlInnerHandler : RunError → RunError
  | .certificateAlreadyExistsError m => .usageError m
  | .keyAlreadyExistsError m => .usageError m
  | .pathError m => .usageError m
  | e => e

/-- The inner except clause of `NodeCertificateOptions.run`
(`_script.py:207-208`): only `PathError` is re-raised as
`UsageError(str(e))`; anything else propagates. -/
def nodeInnerHandler : RunError → RunError
  | .pathError m => .usageError m
  | e => e

/-- The inner except clauses of `UserCertificateOptions.run`
(`_script.py:148-152`): `PathError` is re-raised as
`UsageError(str(e))`; `UnicodeEncodeError` and `UnicodeDecodeError`
are re-raised as a `UsageError` with a fixed message; anything else
propagates. -/
def userInnerHandler : RunError → RunError
  | .pathError m => .usageError m
  | .unicodeDecodeError =>
      .usageError "Invalid username: Could not be converted to UTF-8"
  | .unicodeEncodeError =>
      .usageError "Invalid username: Could not be converted to UTF-8"
  | e => e

/-- Run the nested `try` blocks: on normal completion of the body the
confirmation message is written to stdout; on an exception the inner
except clauses fire first, then the outer `except UsageError` clause. -/
def handleErrors (inner : RunError → RunError) :
    Except RunError String × List Effect → Outcome × List Effect
  | (.ok msg, effs) => (.success msg, effs ++ [.writeStdout msg])
  | (.error e, effs) => (outerHandler (inner e), effs)

/-- Confirmation message of `UserCertificateOptions.run`
(`_script.py:143-147`). -/
def userSuccessMsg (uc : UserCred) : String :=
  "Created " ++ uc.username ++
    ".crt. You can now give it to your API enduser so they can access the control service API."

/-- Confirmation message of `NodeCertificateOptions.run`
(`_script.py:200-206`). -/
def nodeSuccessMsg (nc : NodeCred) : String :=
  "Created " ++ nc.uuid ++
    ".crt. Copy it over to /etc/flocker/node.crt on your node machine and make sure to chmod 0600 it."

/-- Confirmation message of `ControlCertificateOptions.run`
(`_script.py:260-264`). -/
def controlSuccessMsg : String :=
  "Created control-service.crt. Copy it over to /etc/flocker/control-service.crt on your control service machine and make sure to chmod 0600 it."

/-- Confirmation message of `InitializeOptions.run`
(`_script.py:310-314`). -/
def initializeSuccessMsg : String :=
  "Created cluster.key and cluster.crt. Please keep cluster.key secret, as anyone who can access it will be able to control your cluster."

/-- Body of the inner `try` of `UserCertificateOptions.run`
(`_script.py:138-147`): decode the name, load the root from the input
path, initialize the user credential in the output path, then print.
The second component records the side effects performed before the
body returned or raised. -/
def userBody (env : CAEnv) (ip op : String) (raw : List Nat) :
    Except RunError String × List Effect :=
  match utf8Decode raw with
  | none => (.error .unicodeDecodeError, [])
  | some name =>
    match env.fromPath ip with
    | .error e => (.error e.toRunError, [.loadRoot ip])
    | .ok ca =>
      match env.userInitialize op ca name with
      | .error e => (.error e.toRunError, [.loadRoot ip, .initUser op name])
      | .ok uc => (.ok (userSuccessMsg uc), [.loadRoot ip, .initUser op name])

/-- Body of the inner `try` of `NodeCertificateOptions.run`
(`_script.py:197-206`). -/
def nodeBody (env : CAEnv) (ip op : String) :
    Except RunError String × List Effect :=
  match env.fromPath ip with
  | .error e => (.error e.toRunError, [.loadRoot ip])
  | .ok ca =>
    match env.nodeInitialize op ca with
    | .error e => (.error e.toRunError, [.loadRoot ip, .initNode op])
    | .ok nc => (.ok (nodeSuccessMsg nc), [.loadRoot ip, .initNode op])

/-- Body of the inner `try` of `ControlCertificateOptions.run`
(`_script.py:257-264`). -/
def controlBody (env : CAEnv) (ip op : String) :
    Except RunError String × List Effect :=
  match env.fromPath ip with
  | .error e => (.error e.toRunError, [.loadRoot ip])
  | .ok ca =>
    match env.controlInitialize op ca with
    | .error e => (.error e.toRunError, [.loadRoot ip, .initControl op])
    | .ok _ => (.ok controlSuccessMsg, [.loadRoot ip, .initControl op])

/-- Option state of `flocker-ca create-api-certificate`: the required
`name` argument (raw argv bytes) and the two optional directory
options. -/
structure UserCertOptions where
  name : List Nat
  inputpath : Option String
  outputpath : Option String
  deriving DecidableEq, Repr

/-- Option state of `flocker-ca create-node-certificate`. -/
structure NodeCertOptions where
  inputpath : Option String
  outputpath : Option String
  deriving DecidableEq, Repr

/-- Option state of `flocker-ca create-control-certificate`. -/
structure ControlCertOptions where
  inputpath : Option String
  outputpath : Option String
  deriving DecidableEq, Repr

/-- Option state of `flocker-ca initialize` after `parseArgs`: the
cluster name and the target path. -/
structure InitializeState where
  name : String
  path : String
  deriving DecidableEq, Repr

/-- `InitializeOptions.parseArgs` (`_script.py:296-298`): stores the
name and fixes the target path to the current working directory. -/
def InitializeOptions.parseArgs (name : String) (cwd : String) :
    InitializeState :=
  { name := name, path := cwd }

/-- `UserCertificateOptions.run` (`_script.py:122-155`). -/
def UserCertificateOptions.run (env : CAEnv) (o : UserCertOptions) :
    Outcome × List Effect :=
  handleErrors userInnerHandler
    (userBody env (resolvePath o.inputpath env.cwd)
      (resolvePath o.outputpath env.cwd) o.name)

/-- `NodeCertificateOptions.run` (`_script.py:181-211`). -/
def NodeCertificateOptions.run (env : CAEnv) (o : NodeCertOptions) :
    Outcome × List Effect :=
  handleErrors nodeInnerHandler
    (nodeBody env (resolvePath o.inputpath env.cwd)
      (resolvePath o.outputpath env.cwd))

/-- `ControlCertificateOptions.run` (`_script.py:240-271`). -/
def ControlCertificateOptions.run (env : CAEnv) (o : ControlCertOptions) :
    Outcome × List Effect :=
  handleErrors controlInnerHandler
    (controlBody env (resolvePath o.inputpath env.cwd)
      (resolvePath o.outputpath env.cwd))

/-- Body of the inner `try` of `InitializeOptions.run`
(`_script.py:308-314`): initialize the root credential at the path
captured by `parseArgs`, then print. -/
def initializeBody (env : CAEnv) (o : InitializeState) :
    Except RunError String × List Effect :=
  match env.rootInitialize o.path o.name with
  | .error e => (.error e.toRunError, [.initRoot o.path o.name])
  | .ok _ => (.ok initializeSuccessMsg, [.initRoot o.path o.name])

/-- `InitializeOptions.run` (`_script.py:300-321`).  Note that the
current working directory in `env` is not consulted here: the target
path was fixed at `parseArgs` time. -/
def InitializeOptions.run (env : CAEnv) (o : InitializeState) :
    Outcome × List Effect :=
  handleErrors initializeInnerHandler (initializeBody env o)

/-- The `optParameters` declared by `UserCertificateOptions`
(`_script.py:110-117`): long name, short name, default. -/
def UserCertificateOptions.optParameters :
    List (String × String × Option String) :=
  [("inputpath", "i", none), ("outputpath", "o", none)]

/-- The `optParameters` declared by `NodeCertificateOptions`
(`_script.py:172-179`). -/
def NodeCertificateOptions.optParameters :
    List (String × String × Option String) :=
  [("inputpath", "i", none), ("outputpath", "o", none)]

/-- The `optParameters` declared by `ControlCertificateOptions`
(`_script.py:231-238`). -/
def ControlCertificateOptions.optParameters :
    List (String × String × Option String) :=
  [("inputpath", "i", none), ("outputpath", "o", none)]

/-- The `optParameters` declared by `InitializeOptions`: the class
declares none (`_script.py:275-298` has no `optParameters`
attribute), so there is no option selecting a target directory. -/
def InitializeOptions.optParameters :
    List (String × String × Option String) := []

/-- Modelled from the spec: the on-disk state the core operates on —
`flocker/ca/_ca.py` (MaterialStore and the credential classes) is not
among the embedded sources.  A set of existing directories plus a map
from file paths to file contents, as an association list. -/
structure FS where
  dirs : List String
  files : List (String × String)
  deriving DecidableEq, Repr

/-- Contents of the file at a path, if present. -/
def FS.lookup (fs : FS) (p : String) : Option String :=
  (fs.files.find? (fun kv => kv.1 == p)).map (fun kv => kv.2)

/-- Whether a directory exists. -/
def FS.hasDir (fs : FS) (d : String) : Bool := fs.dirs.contains d

/-- The key file path of a credential: `<directory>/<baseName>.key`. -/
def keyPath (dir base : String) : String := dir ++ "/" ++ base ++ ".key"

/-- The certificate file path of a credential:
`<directory>/<baseName>.crt`. -/
def certPath (dir base : String) : String := dir ++ "/" ++ base ++ ".crt"

/-- Modelled from the spec: `MaterialStore.write` (spec section 4.3) —
the `_ca` module is not among the embedded sources.  Writes
`<baseName>.key` and `<baseName>.crt`; fails with
`KeyAlreadyExistsError` if the key path exists,
`CertificateAlreadyExistsError` if the certificate path exists
(checked independently, key first), `PathError` if the directory does
not exist.  Returns the resulting filesystem and the error, if any;
on failure the filesystem is returned untouched. -/
def MaterialStore.write (fs : FS) (dir base keyBytes certBytes : String) :
    FS × Option CoreError :=
  if (fs.lookup (keyPath dir base)).isSome then
    (fs, some (.keyAlreadyExistsError (keyPath dir base)))
  else if (fs.lookup (certPath dir base)).isSome then
    (fs, some (.certificateAlreadyExistsError (certPath dir base)))
  else if ¬ fs.hasDir dir then
    (fs, some (.pathError dir))
  else
    ({ fs with files :=
        (keyPath dir base, keyBytes) :: (certPath dir base, certBytes)
          :: fs.files }, none)

/-- Modelled from the spec: `RootAuthority.initialize` (spec section
4.1) persists freshly generated material via MaterialStore under the
fixed filenames `cluster.key`, `cluster.crt`.  The generated key and
certificate bytes are passed in as parameters (key generation is
abstract). -/
def RootCredential.initialize (fs : FS) (dir : String)
    (keyBytes certBytes : String) : FS × Option CoreError :=
  MaterialStore.write fs dir "cluster" keyBytes certBytes

/-- Modelled from the spec: `ControlCredential.initialize` (spec
section 4.4), filename base `control-service`. -/
def ControlCredential.initialize (fs : FS) (dir : String)
    (keyBytes certBytes : String) : FS × Option CoreError :=
  MaterialStore.write fs dir "control-service" keyBytes certBytes

/-- Modelled from the spec: `NodeCredential.initialize` (spec section
4.5), filename base is the freshly generated identifier, passed in as
a parameter. -/
def NodeCredential.initialize (fs : FS) (dir uuid : String)
    (keyBytes certBytes : String) : FS × Option CoreError :=
  MaterialStore.write fs dir uuid keyBytes certBytes

/-- Modelled from the spec: `UserCredential.initialize` (spec section
4.6), filename base is the (encoded) user name. -/
def UserCredential.initialize (fs : FS) (dir name : String)
    (keyBytes certBytes : String) : FS × Option CoreError :=
  MaterialStore.write fs dir name keyBytes certBytes

/-- A handler registered on the Klein application of
`DatasetAPIUserV1` (`httpapi.py`). -/
inductive HandlerId where
  | version
  | configuration
  deriving DecidableEq, Repr

/-- A route registered via the `app.route` and `structured` decorators
in `httpapi.py`: HTTP method, path, the `$ref` of the declared output
schema, the schema store handed to `structured`, and the handler. -/
structure RouteEntry where
  method : String
  path : String
  outputSchemaRef : String
  schemaStore : List (String × String)
  handler : HandlerId
  deriving DecidableEq, Repr

/-- The module-level schema store `SCHEMAS` of `httpapi.py:20-25`,
loaded once at import time.  The parsed contents of the two YAML
documents are not among the embedded sources, so each value is
abstracted here by the name of the file it is loaded from; the keys
are faithful. -/
def SCHEMAS : List (String × String) :=
  [("/v1/types.json", "schema/types.yml"),
   ("/v1/endpoints.json", "schema/endpoints.yml")]

/-- The control-plane HTTP resource object.  Its `__init__`
(`httpapi.py:34-35`) accepts a `persistence_service` argument and
discards it, so the object carries no state. -/
structure DatasetAPIUserV1 where
  deriving DecidableEq, Repr

/-- `DatasetAPIUserV1.__init__` (`httpapi.py:34-35`): the
`persistence_service` argument is ignored. -/
def DatasetAPIUserV1.init (persistence_service : Option String) :
    DatasetAPIUserV1 := {}

/-- The `version` handler (`httpapi.py:46-50`): returns the one-entry
mapping from `"flocker"` to the package version string.  The version
string (`flocker.__version__`, not among the embedded sources) is a
parameter; like the source method, the handler takes no request
data. -/
def DatasetAPIUserV1.version (self : DatasetAPIUserV1) (v : String) :
    List (String × String) :=
  [("flocker", v)]

/-- The `configuration` handler (`httpapi.py:61-70`): its body is
`pass`, so it returns `None` unconditionally. -/
def DatasetAPIUserV1.configuration (self : DatasetAPIUserV1) :
    Option String :=
  none

/-- The routes registered on the Klein app of `DatasetAPIUserV1` by
the decorators in `httpapi.py:37-60`: exactly `GET /version` and
`GET /configuration`, each validated against the module-level
`SCHEMAS` store. -/
def DatasetAPIUserV1.routes : List RouteEntry :=
  [{ method := "GET", path := "/version",
     outputSchemaRef := "/v1/endpoints.json#/definitions/versions",
     schemaStore := SCHEMAS, handler := .version },
   { method := "GET", path := "/configuration",
     outputSchemaRef := "/v1/endpoints.json#/definitions/configuration",
     schemaStore := SCHEMAS, handler := .configuration }]

/-- A test environment in which every core operation succeeds. -/
def okEnv : CAEnv :=
  { cwd := "/cwd"
  , fromPath := fun _ => .ok { subject := "mycluster" }
  , userInitialize := fun _ _ n => .ok { username := n }
  , nodeInitialize := fun _ _ => .ok { uuid := "node-uuid" }
  , controlInitialize := fun _ _ => .ok ()
  , rootInitialize := fun _ _ => .ok () }

/-- A test environment in which `UserCredential.initialize` raises
`CertificateAlreadyExistsError`, as the core does when a credential
for the requested user name already exists in the output directory. -/
def failingUserInitialize (dir : String) (ca : Root) (name : String) :
    Except CoreError UserCred :=
  .error (.certificateAlreadyExistsError
    "Certificate file alice.crt already exists.")

def certExistsUserEnv : CAEnv :=
  { okEnv with userInitialize := failingUserInitialize }


/-- Filesystem with an existing root key file, used to exercise the
overwrite refusal. -/
def fsWithKey : FS :=
  { dirs := ["/ca"], files := [("/ca/cluster.key", "oldkey")] }

theorem handleErrors_error (inner : RunError → RunError) (e : RunError)
    (effs : List Effect) :
    handleErrors inner (Except.error e, effs) = (outerHandler (inner e), effs) :=
  rfl

theorem userInner_no_pathError_escape (e : RunError) (m : String) :
    outerHandler (userInnerHandler e) ≠ Outcome.uncaught (RunError.pathError m) := by
  cases e <;> simp [userInnerHandler, outerHandler]

theorem nodeInner_no_pathError_escape (e : RunError) (m : String) :
    outerHandler (nodeInnerHandler e) ≠ Outcome.uncaught (RunError.pathError m) := by
  cases e <;> simp [nodeInnerHandler, outerHandler]

theorem controlInner_no_pathError_escape (e : RunError) (m : String) :
    outerHandler (controlInnerHandler e) ≠ Outcome.uncaught (RunError.pathError m) := by
  cases e <;> simp [controlInnerHandler, outerHandler]

theorem initializeInner_no_pathError_escape (e : RunError) (m : String) :
    outerHandler (initializeInnerHandler e) ≠ Outcome.uncaught (RunError.pathError m) := by
  cases e <;> simp [initializeInnerHandler, outerHandler]

theorem no_pathError_escape (inner : RunError → RunError)
    (hinner : ∀ e m, outerHandler (inner e) ≠ Outcome.uncaught (RunError.pathError m))
    (b : Except RunError String × List Effect) (m : String) :
    (handleErrors inner b).1 ≠ Outcome.uncaught (RunError.pathError m) := by
  obtain ⟨r, effs⟩ := b
  cases r with
  | ok msg => simp [handleErrors]
  | error e => simpa [handleErrors] using hinner e m

/-- Claim C3: for every invocation of create-api-certificate with a
name that is not valid UTF-8, run fails immediately during name
validation with SystemExit "Error: Invalid username: Could not be
converted to UTF-8", and its effect trace is empty: the root
credential is never loaded, no leaf initialization (hence no key
generation or file I/O) is attempted, and nothing is printed. -/
theorem invalid_name_fails_before_side_effects (env : CAEnv)
    (o : UserCertOptions) (h : utf8Decode o.name = none) :
    UserCertificateOptions.run env o =
      (Outcome.systemExit
        "Error: Invalid username: Could not be converted to UTF-8",
       []) := by
  unfold UserCertificateOptions.run userBody
  rw [h]
  rfl

theorem invalid_name_fails_before_side_effects_witness :
    utf8Decode [255] = none ∧
    UserCertificateOptions.run okEnv
        { name := [255], inputpath := none, outputpath := none } =
      (Outcome.systemExit
        "Error: Invalid username: Could not be converted to UTF-8",
       []) :=
  ⟨by decide,
   invalid_name_fails_before_side_effects okEnv
     { name := [255], inputpath := none, outputpath := none } (by decide)⟩

/-- Claim C5: for every subcommand, a PathError raised by the CA
operations during run is converted in two stages: the inner except
clause re-raises it as a UsageError carrying the same text, the outer
clause converts that UsageError into a SystemExit whose message is
"Error: " followed by that text; and no run ever lets the PathError
itself escape. -/
theorem pathError_two_stage_conversion (m : String) :
    (userInnerHandler (.pathError m) = .usageError m ∧
     nodeInnerHandler (.pathError m) = .usageError m ∧
     controlInnerHandler (.pathError m) = .usageError m ∧
     initializeInnerHandler (.pathError m) = .usageError m) ∧
    outerHandler (.usageError m) = .systemExit ("Error: " ++ m) ∧
    (∀ b : Except RunError String × List Effect,
      b.1 = .error (.pathError m) →
        (handleErrors userInnerHandler b).1 =
          Outcome.systemExit ("Error: " ++ m) ∧
        (handleErrors nodeInnerHandler b).1 =
          Outcome.systemExit ("Error: " ++ m) ∧
        (handleErrors controlInnerHandler b).1 =
          Outcome.systemExit ("Error: " ++ m) ∧
        (handleErrors initializeInnerHandler b).1 =
          Outcome.systemExit ("Error: " ++ m)) ∧
    (∀ env o, (UserCertificateOptions.run env o).1 ≠
      Outcome.uncaught (.pathError m)) ∧
    (∀ env o, (NodeCertificateOptions.run env o).1 ≠
      Outcome.uncaught (.pathError m)) ∧
    (∀ env o, (ControlCertificateOptions.run env o).1 ≠
      Outcome.uncaught (.pathError m)) ∧
    (∀ env o, (InitializeOptions.run env o).1 ≠
      Outcome.uncaught (.pathError m)) := by
  refine ⟨⟨rfl, rfl, rfl, rfl⟩, rfl, ?_, ?_, ?_, ?_, ?_⟩
  · intro b hb
    obtain ⟨r, effs⟩ := b
    simp only at hb
    subst hb
    exact ⟨rfl, rfl, rfl, rfl⟩
  · intro env o
    exact no_pathError_escape userInnerHandler
      userInner_no_pathError_escape _ m
  · intro env o
    exact no_pathError_escape nodeInnerHandler
      nodeInner_no_pathError_escape _ m
  · intro env o
    exact no_pathError_escape controlInnerHandler
      controlInner_no_pathError_escape _ m
  · intro env o
    exact no_pathError_escape initializeInnerHandler
      initializeInner_no_pathError_escape _ m

theorem pathError_two_stage_conversion_witness :
    (handleErrors userInnerHandler
        (Except.error (RunError.pathError "pe"), ([] : List Effect))).1 =
      Outcome.systemExit ("Error: " ++ "pe") :=
  ((pathError_two_stage_conversion "pe").2.2.1
    (Except.error (RunError.pathError "pe"), []) rfl).1

/-- Claim C6: the HTTP control-plane layer registers exactly the two
read endpoints GET /version and GET /configuration and no others, and
the version handler returns exactly the one-entry mapping from
"flocker" to the package version string (the handler takes no request
data, so every request receives the same response). -/
theorem http_layer_two_read_endpoints :
    DatasetAPIUserV1.routes.map (fun r => (r.method, r.path)) =
      [("GET", "/version"), ("GET", "/configuration")] ∧
    ∀ (self : DatasetAPIUserV1) (v : String),
      self.version v = [("flocker", v)] ∧ (self.version v).length = 1 :=
  ⟨rfl, fun _ _ => ⟨rfl, rfl⟩⟩

/-- Claim C7: the JSON-schema store is the single module-level value
SCHEMAS, whose key list is exactly /v1/types.json, /v1/endpoints.json,
and both registered endpoints carry that same store value for their
schema validation. -/
theorem schema_store_single_shared_value :
    SCHEMAS.map Prod.fst = ["/v1/types.json", "/v1/endpoints.json"] ∧
    DatasetAPIUserV1.routes.map RouteEntry.schemaStore =
      [SCHEMAS, SCHEMAS] :=
  ⟨rfl, rfl⟩

/-- Claim C9: flocker-ca initialize always targets the current working
directory captured at parseArgs time: parseArgs fixes the target path
to cwd, the class declares no optParameters (so no option selects
another directory, unlike the three create subcommands), and every
root-initialization effect performed by run uses that captured path
and name. -/
theorem initialize_targets_cwd (name cwd : String) (env : CAEnv) :
    (InitializeOptions.parseArgs name cwd).path = cwd ∧
    InitializeOptions.optParameters = [] ∧
    UserCertificateOptions.optParameters.map (fun x => x.1) =
      ["inputpath", "outputpath"] ∧
    (∀ d n, Effect.initRoot d n ∈
        (InitializeOptions.run env (InitializeOptions.parseArgs name cwd)).2 →
      d = cwd ∧ n = name) := by
  refine ⟨rfl, rfl, rfl, fun d n hmem => ?_⟩
  unfold InitializeOptions.run initializeBody InitializeOptions.parseArgs at hmem
  simp only at hmem
  cases h : env.rootInitialize cwd name <;>
    simp [h, handleErrors] at hmem <;> exact hmem

theorem initialize_targets_cwd_witness :
    Effect.initRoot "/cwd" "mycluster" ∈
      (InitializeOptions.run okEnv
        (InitializeOptions.parseArgs "mycluster" "/cwd")).2 ∧
    ("/cwd" = "/cwd" ∧ "mycluster" = "mycluster") :=
  ⟨by decide,
   (initialize_targets_cwd "mycluster" "/cwd" okEnv).2.2.2 "/cwd" "mycluster"
     (by decide)⟩

/-- Claim C10: the GET /configuration handler is a stub that returns
None for every request and for every persistence state handed to the
resource at construction, even though its registered route declares
the output schema /v1/endpoints.json#/definitions/configuration. -/
theorem configuration_handler_returns_none :
    (∀ p : Option String,
      (DatasetAPIUserV1.init p).configuration = none) ∧
    DatasetAPIUserV1.routes.map
        (fun r => (r.handler, r.outputSchemaRef)) =
      [(HandlerId.version, "/v1/endpoints.json#/definitions/versions"),
       (HandlerId.configuration,
        "/v1/endpoints.json#/definitions/configuration")] :=
  ⟨fun _ => rfl, rfl⟩

theorem userRun_trace_shape (env : CAEnv) (o : UserCertOptions)
    (eff : Effect) (h : eff ∈ (UserCertificateOptions.run env o).2) :
    eff = Effect.loadRoot (resolvePath o.inputpath env.cwd) ∨
    (∃ s, eff = Effect.initUser (resolvePath o.outputpath env.cwd) s) ∨
    (∃ msg, eff = Effect.writeStdout msg) := by
  unfold UserCertificateOptions.run userBody at h
  rcases hu : utf8Decode o.name with _ | name <;>
    rw [hu] at h <;> dsimp only at h
  · simp [handleErrors] at h
  · rcases hf : env.fromPath (resolvePath o.inputpath env.cwd)
      with e | ca <;> rw [hf] at h <;> dsimp only at h
    · simp [handleErrors] at h
      simp [h]
    · rcases hi : env.userInitialize (resolvePath o.outputpath env.cwd)
        ca name with e | uc <;> rw [hi] at h <;> dsimp only at h <;>
        simp [handleErrors] at h <;> aesop

theorem nodeRun_trace_shape (env : CAEnv) (o : NodeCertOptions)
    (eff : Effect) (h : eff ∈ (NodeCertificateOptions.run env o).2) :
    eff = Effect.loadRoot (resolvePath o.inputpath env.cwd) ∨
    eff = Effect.initNode (resolvePath o.outputpath env.cwd) ∨
    (∃ msg, eff = Effect.writeStdout msg) := by
  unfold NodeCertificateOptions.run nodeBody at h
  rcases hf : env.fromPath (resolvePath o.inputpath env.cwd)
    with e | ca <;> rw [hf] at h <;> dsimp only at h
  · simp [handleErrors] at h
    simp [h]
  · rcases hi : env.nodeInitialize (resolvePath o.outputpath env.cwd)
      ca with e | nc <;> rw [hi] at h <;> dsimp only at h <;>
      simp [handleErrors] at h <;> aesop

theorem controlRun_trace_shape (env : CAEnv) (o : ControlCertOptions)
    (eff : Effect) (h : eff ∈ (ControlCertificateOptions.run env o).2) :
    eff = Effect.loadRoot (resolvePath o.inputpath env.cwd) ∨
    eff = Effect.initControl (resolvePath o.outputpath env.cwd) ∨
    (∃ msg, eff = Effect.writeStdout msg) := by
  unfold ControlCertificateOptions.run controlBody at h
  rcases hf : env.fromPath (resolvePath o.inputpath env.cwd)
    with e | ca <;> rw [hf] at h <;> dsimp only at h
  · simp [handleErrors] at h
    simp [h]
  · rcases hi : env.controlInitialize (resolvePath o.outputpath env.cwd)
      ca with e | u <;> rw [hi] at h <;> dsimp only at h <;>
      simp [handleErrors] at h <;> aesop

/-- Claim C8: for the three create subcommands, an omitted inputpath
or outputpath option resolves to the current working directory; the
root credential is always loaded from the resolved inputpath and the
leaf credential is always initialized in the resolved outputpath, so
the two directories are independent and may differ. -/
theorem create_subcommand_paths (env : CAEnv) (u : UserCertOptions)
    (n : NodeCertOptions) (c : ControlCertOptions) :
    resolvePath none env.cwd = env.cwd ∧
    (∀ d, Effect.loadRoot d ∈ (UserCertificateOptions.run env u).2 →
        d = resolvePath u.inputpath env.cwd) ∧
    (∀ d s, Effect.initUser d s ∈ (UserCertificateOptions.run env u).2 →
        d = resolvePath u.outputpath env.cwd) ∧
    (∀ d, Effect.loadRoot d ∈ (NodeCertificateOptions.run env n).2 →
        d = resolvePath n.inputpath env.cwd) ∧
    (∀ d, Effect.initNode d ∈ (NodeCertificateOptions.run env n).2 →
        d = resolvePath n.outputpath env.cwd) ∧
    (∀ d, Effect.loadRoot d ∈ (ControlCertificateOptions.run env c).2 →
        d = resolvePath c.inputpath env.cwd) ∧
    (∀ d, Effect.initControl d ∈ (ControlCertificateOptions.run env c).2 →
        d = resolvePath c.outputpath env.cwd) := by
  refine ⟨rfl, ?_, ?_, ?_, ?_, ?_, ?_⟩
  · intro d h
    rcases userRun_trace_shape env u _ h with h1 | ⟨s, h1⟩ | ⟨msg, h1⟩ <;>
      simp_all
  · intro d s h
    rcases userRun_trace_shape env u _ h with h1 | ⟨s2, h1⟩ | ⟨msg, h1⟩ <;>
      simp_all
  · intro d h
    rcases nodeRun_trace_shape env n _ h with h1 | h1 | ⟨msg, h1⟩ <;>
      simp_all
  · intro d h
    rcases nodeRun_trace_shape env n _ h with h1 | h1 | ⟨msg, h1⟩ <;>
      simp_all
  · intro d h
    rcases controlRun_trace_shape env c _ h with h1 | h1 | ⟨msg, h1⟩ <;>
      simp_all
  · intro d h
    rcases controlRun_trace_shape env c _ h with h1 | h1 | ⟨msg, h1⟩ <;>
      simp_all

theorem create_subcommand_paths_witness :
    Effect.loadRoot "/in" ∈
      (UserCertificateOptions.run okEnv
        { name := [97], inputpath := some "/in",
          outputpath := some "/out" }).2 ∧
    "/in" = resolvePath (some "/in") okEnv.cwd :=
  ⟨by decide,
   (create_subcommand_paths okEnv
      { name := [97], inputpath := some "/in", outputpath := some "/out" }
      { inputpath := none, outputpath := none }
      { inputpath := none, outputpath := none }).2.1 "/in" (by decide)⟩

/-- Claim C4: for every filesystem and every initialize operation
(root, control-service, node or user credential — each persists via
MaterialStore.write at its filename base), if the key file already
exists at the target location the operation fails with
KeyAlreadyExistsError, if the certificate file already exists it fails
with CertificateAlreadyExistsError, and in either case the returned
filesystem is the input filesystem, so every pre-existing file is left
byte-for-byte unmodified. -/
theorem initialize_refuses_overwrite (fs : FS) (dir base kb cb : String) :
    RootCredential.initialize fs dir kb cb =
      MaterialStore.write fs dir "cluster" kb cb ∧
    ControlCredential.initialize fs dir kb cb =
      MaterialStore.write fs dir "control-service" kb cb ∧
    NodeCredential.initialize fs dir base kb cb =
      MaterialStore.write fs dir base kb cb ∧
    UserCredential.initialize fs dir base kb cb =
      MaterialStore.write fs dir base kb cb ∧
    ((fs.lookup (keyPath dir base)).isSome = true →
      MaterialStore.write fs dir base kb cb =
        (fs, some (CoreError.keyAlreadyExistsError (keyPath dir base)))) ∧
    ((fs.lookup (keyPath dir base)).isSome = false →
      (fs.lookup (certPath dir base)).isSome = true →
      MaterialStore.write fs dir base kb cb =
        (fs, some (CoreError.certificateAlreadyExistsError
          (certPath dir base)))) ∧
    ((fs.lookup (keyPath dir base)).isSome = true ∨
        (fs.lookup (certPath dir base)).isSome = true →
      (MaterialStore.write fs dir base kb cb).1 = fs) := by
  refine ⟨rfl, rfl, rfl, rfl, ?_, ?_, ?_⟩
  · intro hk
    simp [MaterialStore.write, hk]
  · intro hk hc
    simp [MaterialStore.write, hk, hc]
  · intro h
    rcases h with hk | hc
    · simp [MaterialStore.write, hk]
    · by_cases hk : (fs.lookup (keyPath dir base)).isSome = true
      · simp [MaterialStore.write, hk]
      · simp at hk
        simp [MaterialStore.write, hk, hc]

theorem initialize_refuses_overwrite_witness :
    (fsWithKey.lookup (keyPath "/ca" "cluster")).isSome = true ∧
    MaterialStore.write fsWithKey "/ca" "cluster" "newkey" "newcert" =
      (fsWithKey,
       some (CoreError.keyAlreadyExistsError (keyPath "/ca" "cluster"))) :=
  ⟨by decide,
   (initialize_refuses_overwrite fsWithKey "/ca" "cluster" "newkey"
     "newcert").2.2.2.2.1 (by decide)⟩

/-- Claim C1 counterexample: when the core raises
CertificateAlreadyExistsError during flocker-ca
create-api-certificate (as it does when a credential for the
requested user name already exists), the error escapes run unconverted
instead of becoming a SystemExit, contradicting the claim that every
typed core error is converted by every subcommand. -/
theorem certExists_escapes_user_run :
    (UserCertificateOptions.run certExistsUserEnv
        { name := [97, 108, 105, 99, 101], inputpath := none,
          outputpath := none }).1 =
      Outcome.uncaught (RunError.certificateAlreadyExistsError
        "Certificate file alice.crt already exists.") ∧
    (UserCertificateOptions.run certExistsUserEnv
        { name := [97, 108, 105, 99, 101], inputpath := none,
          outputpath := none }).1 ≠
      Outcome.systemExit
        "Error: Certificate file alice.crt already exists." := by
  constructor
  · decide
  · decide

/-- Claim C1 (amended): initialize and create-control-certificate
convert each typed core error (PathError, KeyAlreadyExistsError,
CertificateAlreadyExistsError) raised during their run into a
SystemExit whose message is "Error: " followed by the error text;
create-node-certificate and create-api-certificate convert only
PathError that way, and a KeyAlreadyExistsError or
CertificateAlreadyExistsError raised during those two subcommands
escapes run unconverted.  Each run method is the composition of its
inner and outer except clauses with its body. -/
theorem run_error_conversion_by_subcommand (e : CoreError)
    (b : Except RunError String × List Effect)
    (hb : b.1 = Except.error e.toRunError) :
    (∀ env o, UserCertificateOptions.run env o =
      handleErrors userInnerHandler
        (userBody env (resolvePath o.inputpath env.cwd)
          (resolvePath o.outputpath env.cwd) o.name)) ∧
    (∀ env o, NodeCertificateOptions.run env o =
      handleErrors nodeInnerHandler
        (nodeBody env (resolvePath o.inputpath env.cwd)
          (resolvePath o.outputpath env.cwd))) ∧
    (∀ env o, ControlCertificateOptions.run env o =
      handleErrors controlInnerHandler
        (controlBody env (resolvePath o.inputpath env.cwd)
          (resolvePath o.outputpath env.cwd))) ∧
    (∀ env o, InitializeOptions.run env o =
      handleErrors initializeInnerHandler (initializeBody env o)) ∧
    (handleErrors initializeInnerHandler b).1 =
      Outcome.systemExit ("Error: " ++ e.text) ∧
    (handleErrors controlInnerHandler b).1 =
      Outcome.systemExit ("Error: " ++ e.text) ∧
    (e.isPathError = true →
      (handleErrors nodeInnerHandler b).1 =
        Outcome.systemExit ("Error: " ++ e.text) ∧
      (handleErrors userInnerHandler b).1 =
        Outcome.systemExit ("Error: " ++ e.text)) ∧
    (e.isPathError = false →
      (handleErrors nodeInnerHandler b).1 =
        Outcome.uncaught e.toRunError ∧
      (handleErrors userInnerHandler b).1 =
        Outcome.uncaught e.toRunError) := by
  obtain ⟨r, effs⟩ := b
  simp only at hb
  subst hb
  refine ⟨fun env o => rfl, fun env o => rfl, fun env o => rfl,
    fun env o => rfl, ?_, ?_, ?_, ?_⟩ <;>
    cases e <;>
      simp [handleErrors, CoreError.toRunError, CoreError.text,
        CoreError.isPathError, initializeInnerHandler, controlInnerHandler,
        nodeInnerHandler, userInnerHandler, outerHandler]

theorem run_error_conversion_by_subcommand_witness :
    (handleErrors nodeInnerHandler
        (Except.error (RunError.certificateAlreadyExistsError "c"),
         ([] : List Effect))).1 =
      Outcome.uncaught (RunError.certificateAlreadyExistsError "c") :=
  ((run_error_conversion_by_subcommand
      (CoreError.certificateAlreadyExistsError "c")
      (Except.error (RunError.certificateAlreadyExistsError "c"), [])
      rfl).2.2.2.2.2.2.2 rfl).1

/-- Claim C2 counterexample: for the concrete non-UTF-8 name 0xFF in
create-api-certificate, the failure raised during name validation is
the unicode decode error, which is not the dedicated
InvalidIdentityError named by the specification; the surfaced result
is the SystemExit built from the unicode handling clause. -/
theorem invalid_name_error_not_invalidIdentity :
    (userBody okEnv "/cwd" "/cwd" [255]).1 =
      Except.error RunError.unicodeDecodeError ∧
    RunError.isInvalidIdentityError RunError.unicodeDecodeError = false ∧
    (UserCertificateOptions.run okEnv
        { name := [255], inputpath := none, outputpath := none }).1 =
      Outcome.systemExit
        "Error: Invalid username: Could not be converted to UTF-8" := by
  refine ⟨rfl, rfl, by decide⟩

/-- Claim C2 (amended): when create-api-certificate is given a name
that cannot be decoded as UTF-8, the failure is signaled with the
unicode conversion error kind (UnicodeDecodeError), handled by a
dedicated except clause distinct from the path/existence error
handling and converted to UsageError "Invalid username: Could not be
converted to UTF-8", then to the corresponding SystemExit; no
dedicated InvalidIdentityError is involved. -/
theorem invalid_name_unicode_error_path (env : CAEnv) (ip op : String)
    (raw : List Nat) (h : utf8Decode raw = none) :
    (userBody env ip op raw).1 =
      Except.error RunError.unicodeDecodeError ∧
    RunError.isInvalidIdentityError RunError.unicodeDecodeError = false ∧
    userInnerHandler RunError.unicodeDecodeError =
      RunError.usageError
        "Invalid username: Could not be converted to UTF-8" ∧
    (∀ m, userInnerHandler (RunError.pathError m) =
      RunError.usageError m) ∧
    outerHandler (RunError.usageError
        "Invalid username: Could not be converted to UTF-8") =
      Outcome.systemExit
        "Error: Invalid username: Could not be converted to UTF-8" := by
  refine ⟨?_, rfl, rfl, fun m => rfl, rfl⟩
  unfold userBody
  rw [h]

theorem invalid_name_unicode_error_path_witness :
    utf8Decode [255] = none ∧
    (userBody okEnv "/cwd" "/cwd" [255]).1 =
      Except.error RunError.unicodeDecodeError :=
  ⟨by decide,
   (invalid_name_unicode_error_path okEnv "/cwd" "/cwd" [255]
     (by decide)).1⟩
